import Mathlib

/-
Verification of the container-lifecycle correlation core
(package `container`, file container.go) against its specification.

The Go code is shallowly embedded: each Operator method becomes a Lean
function that takes the Operator state explicitly and returns the pair of
its result and the state after the call.  Backend replies (the Interactor
methods ContainerList / ContainerStats / ContainerKill) and the filesystem
(os.Stat, fs.ReadFile, filepath.Glob) are modelled as explicit parameters,
since the backend and the filesystem are external collaborators.  Fallible
Go calls returning (value, error) become `Except GoError value`.
-/

set_option autoImplicit false

deriving instance DecidableEq for Except

namespace ContainerOp

/-- Go errors, as far as this package observes them: either an opaque
underlying error coming from the backend or the filesystem (`raw`), or the
structured `OperatorErr\x7bType, Err\x7d` value built at line 121 of
container.go, which carries a fixed reason tag and wraps a cause. -/
inductive GoError where
  | raw : String → GoError
  | operatorErr : String → GoError → GoError
  deriving DecidableEq, Repr

/-- ErrContainerList, the reason tag for a failed container listing. -/
def ErrContainerList : String := "Could not list the containers"

/-- ErrContainerStats, the reason tag for a failed stats query. -/
def ErrContainerStats : String := "Could not get the container stats"

/-- ErrContainerKill, the reason tag for a failed kill. -/
def ErrContainerKill : String := "Container could not be killed"

/-- The Error() method of OperatorErr: reason tag, then the wrapped cause
in square brackets. -/
def GoError.message : GoError → String
  | .raw s => s
  | .operatorErr t e => t ++ " [" ++ e.message ++ "]"

/-- Container struct: id and name aliases. -/
structure Container where
  id : String
  names : List String
  deriving DecidableEq, Repr

/-- Stats struct: memory (MB) and cumulative CPU (seconds). -/
structure Stats where
  memoryMB : Int
  cpuSec : Int
  deriving DecidableEq, Repr

/-- Operator state: the remembered set `existingContainers`.  The Go field
is a map from string to bool used as a set, so it is modelled as a
`Finset String`.  The Interactor client is not part of the state here: its
replies are passed to each operation explicitly. -/
structure Operator where
  existingContainers : Finset String
  deriving DecidableEq

/-- NewOperator: fresh Operator with an empty remembered set. -/
def NewOperator : Operator := ⟨∅⟩

/-- GetCurrentContainers: returns the list the backend replied with, or
wraps a backend listing failure in OperatorErr with the ErrContainerList
tag.  `listReply` is the reply of the `o.client.ContainerList(ctx)` call
made during this operation. -/
def GetCurrentContainers (o : Operator) (listReply : Except GoError (List Container)) :
    Except GoError (List Container) × Operator :=
  match listReply with
  | .error err => (.error (.operatorErr ErrContainerList err), o)
  | .ok contnrList => (.ok contnrList, o)

/-- RememberCurrentContainerIDs: calls GetCurrentContainers and inserts
every returned ID into the remembered set. -/
def RememberCurrentContainerIDs (o : Operator) (listReply : Except GoError (List Container)) :
    Except GoError Unit × Operator :=
  match GetCurrentContainers o listReply with
  | (.error err, o1) => (.error err, o1)
  | (.ok curContainers, o1) =>
    (.ok (), ⟨curContainers.foldl (fun s c => insert c.id s) o1.existingContainers⟩)

/-- GetNewContainers: calls GetCurrentContainers and keeps, in order,
the containers whose ID is not in the remembered set. -/
def GetNewContainers (o : Operator) (listReply : Except GoError (List Container)) :
    Except GoError (List Container) × Operator :=
  match GetCurrentContainers o listReply with
  | (.error err, o1) => (.error err, o1)
  | (.ok curContainers, o1) =>
    (.ok (curContainers.filter fun c => !decide (c.id ∈ o1.existingContainers)), o1)

/-- GetNewContainerIDs: the IDs of GetNewContainers, in the same order. -/
def GetNewContainerIDs (o : Operator) (listReply : Except GoError (List Container)) :
    Except GoError (List String) × Operator :=
  match GetNewContainers o listReply with
  | (.error err, o1) => (.error err, o1)
  | (.ok newContainers, o1) => (.ok (newContainers.map Container.id), o1)

/-- strings.TrimPrefix: removes exactly one occurrence of the given
leading string, if present.  Computed on the underlying character lists so
that the kernel can evaluate it. -/
def trimPfx (s pre : String) : String :=
  if pre.data.isPrefixOf s.data then ⟨s.data.drop pre.data.length⟩ else s

/-- strings.TrimSuffix: removes exactly one occurrence of the given
trailing string, if present.  Computed on the underlying character lists
so that the kernel can evaluate it. -/
def trimSuffix (s suf : String) : String :=
  if suf.data.isSuffixOf s.data then ⟨s.data.take (s.data.length - suf.data.length)⟩ else s

/-- HasName: true when some alias in the containers Names, after stripping
exactly one leading "/" if present, equals the queried name. -/
def HasName (name : String) (container : Container) : Bool :=
  container.names.any fun cname => trimPfx cname "/" == name

/-- The scan loop of GetNewContainerIDByName: the ID of the first
container matching the name, or the empty string. -/
def findIDByName (name : String) : List Container → String
  | [] => ""
  | cntr :: rest => if HasName name cntr then cntr.id else findIDByName name rest

/-- GetNewContainerIDByName: the ID of the first new container that has
the given name; empty string with no error when none matches. -/
def GetNewContainerIDByName (o : Operator) (listReply : Except GoError (List Container))
    (name : String) : Except GoError String × Operator :=
  match GetNewContainers o listReply with
  | (.error err, o1) => (.error err, o1)
  | (.ok newContainers, o1) => (.ok (findIDByName name newContainers), o1)

/-- verifyID: checks whether the given id is the ID of a current
container, via GetCurrentContainers. -/
def verifyID (o : Operator) (listReply : Except GoError (List Container)) (id : String) :
    Except GoError Bool × Operator :=
  match GetCurrentContainers o listReply with
  | (.error err, o1) => (.error err, o1)
  | (.ok curContainers, o1) => (.ok (curContainers.any fun c => c.id == id), o1)

/-- The filesystem as the Operator observes it: os.Stat success at a path,
fs.ReadFile returning the whole file content or an error, and
filepath.Glob returning the engine-ordered matches or a pattern-syntax
error. -/
structure FileSys where
  stat : String → Bool
  readFile : String → Except GoError String
  glob : String → Except GoError (List String)

/-- Modelled from the spec: fs.RelToAbsPath from the repositorys fs
helper package, which is not part of the shown sources.  "If path is not
absolute, resolve it against dir to form an absolute candidate path." -/
def RelToAbsPath (path dir : String) : String :=
  if "/".data.isPrefixOf path.data then path else dir ++ "/" ++ path

/-- cidPathToID: reads the file, trims one trailing newline from the whole
content to obtain the candidate id, verifies it against the live list;
returns the id on success, the empty string on a failed verification, and
propagates read errors and verification (listing) errors. -/
def cidPathToID (o : Operator) (fs : FileSys) (listReply : Except GoError (List Container))
    (cidPath : String) : Except GoError String × Operator :=
  match fs.readFile cidPath with
  | .error err => (.error err, o)
  | .ok fileContent =>
    let id := trimSuffix fileContent "\n"
    match verifyID o listReply id with
    | (.ok true, o1) => (.ok id, o1)
    | (.ok false, o1) => (.ok "", o1)
    | (.error err, o1) => (.error err, o1)

/-- The loop of cidPathGlobToID: visits the matched paths in order; a path
on which cidPathToID returns an error is skipped (continue), a path
yielding a nonempty id ends the scan, and the loop finishes with the empty
string.  The loop itself never produces an error. -/
def cidGlobLoop (o : Operator) (fs : FileSys) (listReply : Except GoError (List Container)) :
    List String → String
  | [] => ""
  | path :: rest =>
    match cidPathToID o fs listReply path with
    | (.error _, _) => cidGlobLoop o fs listReply rest
    | (.ok id, _) => if id != "" then id else cidGlobLoop o fs listReply rest

/-- cidPathGlobToID: expands the glob and scans the matches with
cidGlobLoop; a glob pattern-syntax error is returned to the caller. -/
def cidPathGlobToID (o : Operator) (fs : FileSys) (listReply : Except GoError (List Container))
    (cidGlobPath : String) : Except GoError String × Operator :=
  match fs.glob cidGlobPath with
  | .error err => (.error err, o)
  | .ok paths => (.ok (cidGlobLoop o fs listReply paths), o)

/-- GetContainerIDByPath: resolves the path against dir, then uses the
direct-path logic when a file exists at the resolved path and the glob
logic otherwise. -/
def GetContainerIDByPath (o : Operator) (fs : FileSys)
    (listReply : Except GoError (List Container)) (path dir : String) :
    Except GoError String × Operator :=
  let cidPath := RelToAbsPath path dir
  if fs.stat cidPath then cidPathToID o fs listReply cidPath
  else cidPathGlobToID o fs listReply cidPath

/-- ContainerStats: returns the backends stats reply, propagating its
error unchanged. -/
def ContainerStats (o : Operator) (statsReply : Except GoError Stats) :
    Except GoError Stats × Operator :=
  match statsReply with
  | .error err => (.error err, o)
  | .ok stats => (.ok stats, o)

/-- KillContainer: returns the backends kill reply unchanged. -/
def KillContainer (o : Operator) (killReply : Except GoError Unit) :
    Except GoError Unit × Operator :=
  (killReply, o)

/-- A sequence of RememberCurrentContainerIDs calls, each with the reply
the backend gave at that call. -/
def rememberSeq (o : Operator) : List (Except GoError (List Container)) → Operator
  | [] => o
  | r :: rs => rememberSeq (RememberCurrentContainerIDs o r).2 rs

/-- Follows the spec wording: the first line of an ID file, i.e. the
content up to the first newline.  Used only to state what the spec says
the recognized candidate ID is. -/
def specFirstLine (s : String) : String :=
  ⟨s.data.takeWhile fun c => !(c == Char.ofNat 10)⟩

/-- Follows the spec wording for the glob scan: visit the matches in glob
order; skip a match that is unreadable; take the first match whose content
(one trailing newline trimmed) is a nonempty ID of a live container; yield
the empty string when no match verifies. -/
def specGlobScan (fs : FileSys) (live : List Container) : List String → String
  | [] => ""
  | p :: rest =>
    match fs.readFile p with
    | .error _ => specGlobScan fs live rest
    | .ok content =>
      let id := trimSuffix content "\n"
      if (id != "") && (live.any fun c => c.id == id) then id
      else specGlobScan fs live rest

/-- A filesystem with one readable ID file at an exact path. -/
def sampleFS : FileSys where
  stat := fun p => p == "/tmp/app.cid"
  readFile := fun p =>
    if p == "/tmp/app.cid" then .ok "abc123\n" else .error (.raw "open: no such file")
  glob := fun _ => .ok []

/-- A filesystem whose ID file holds a second line after the ID line. -/
def multiLineFS : FileSys where
  stat := fun p => p == "/tmp/app.cid"
  readFile := fun p =>
    if p == "/tmp/app.cid" then .ok "abc123\nextra\n" else .error (.raw "open: no such file")
  glob := fun _ => .ok []

/-- A filesystem on which the exact path never exists and the glob matches
two ID files: app1 holds a stale ID, app2 a live one. -/
def globFS : FileSys where
  stat := fun _ => false
  readFile := fun p =>
    if p == "/tmp/app1.cid" then .ok "stale99\n"
    else if p == "/tmp/app2.cid" then .ok "live77\n"
    else .error (.raw "open: no such file")
  glob := fun p =>
    if p == "/tmp/app?.cid" then .ok ["/tmp/app1.cid", "/tmp/app2.cid"] else .ok []

/-- A filesystem on which the exact path never exists and the glob matches
one readable ID file. -/
def listFailGlobFS : FileSys where
  stat := fun _ => false
  readFile := fun _ => .ok "someid\n"
  glob := fun _ => .ok ["/tmp/app1.cid"]

/-- A filesystem with a file at the exact path that cannot be read. -/
def readFailFS : FileSys where
  stat := fun p => p == "/tmp/app.cid"
  readFile := fun _ => .error (.raw "permission denied")
  glob := fun _ => .ok []

end ContainerOp

namespace ContainerOp

/-! ## State (frame) lemmas shared by several proofs -/

theorem getCurrentContainers_state (o : Operator) (lr : Except GoError (List Container)) :
    (GetCurrentContainers o lr).2 = o := by
  cases lr <;> rfl

theorem verifyID_state (o : Operator) (lr : Except GoError (List Container)) (id : String) :
    (verifyID o lr id).2 = o := by
  cases lr <;> rfl

theorem cidPathToID_state (o : Operator) (fs : FileSys) (lr : Except GoError (List Container))
    (p : String) : (cidPathToID o fs lr p).2 = o := by
  unfold cidPathToID
  split
  · rfl
  · rename_i content heq0
    dsimp only
    split <;> rename_i o1 heq <;>
      · have h := verifyID_state o lr (trimSuffix content "\n")
        rw [heq] at h
        exact h

theorem cidPathGlobToID_state (o : Operator) (fs : FileSys)
    (lr : Except GoError (List Container)) (p : String) :
    (cidPathGlobToID o fs lr p).2 = o := by
  unfold cidPathGlobToID
  split <;> rfl

theorem getContainerIDByPath_state (o : Operator) (fs : FileSys)
    (lr : Except GoError (List Container)) (path dir : String) :
    (GetContainerIDByPath o fs lr path dir).2 = o := by
  unfold GetContainerIDByPath
  dsimp only
  split
  · exact cidPathToID_state ..
  · exact cidPathGlobToID_state ..

/-! ## Remembered-set lemmas -/

theorem foldl_insert_eq_union (S : Finset String) (cs : List Container) :
    cs.foldl (fun s c => insert c.id s) S = S ∪ (cs.map Container.id).toFinset := by
  induction cs generalizing S with
  | nil => simp
  | cons c cs ih => simp [List.foldl_cons, ih, Finset.insert_union, Finset.union_insert]

theorem remember_state_ok (o : Operator) (l : List Container) :
    (RememberCurrentContainerIDs o (.ok l)).2 =
      ⟨o.existingContainers ∪ (l.map Container.id).toFinset⟩ := by
  simp [RememberCurrentContainerIDs, GetCurrentContainers, foldl_insert_eq_union]

theorem rememberSeq_ok (o : Operator) (ls : List (List Container)) :
    (rememberSeq o (ls.map Except.ok)).existingContainers =
      o.existingContainers ∪ (ls.flatMap fun l => l.map Container.id).toFinset := by
  induction ls generalizing o with
  | nil => simp [rememberSeq]
  | cons l ls ih =>
    simp [rememberSeq, remember_state_ok, ih, List.toFinset_append, Finset.union_assoc]

/-- The scan loop of GetNewContainerIDByName, described through find?. -/
theorem findIDByName_eq_find (name : String) (l : List Container) :
    findIDByName name l = ((l.find? fun c => HasName name c).map Container.id).getD "" := by
  induction l with
  | nil => rfl
  | cons c rest ih =>
    cases h : HasName name c with
    | true => simp [findIDByName, h, List.find?_cons_of_pos _ h]
    | false =>
      have hneg : ¬ ((fun c2 => HasName name c2) c = true) := by simp [h]
      simp [findIDByName, h, List.find?_cons_of_neg _ hneg, ih]

/-! ## Claim theorems -/

/-- C1: for every remembered set R and backend reply, GetNewContainers
with a successful list C returns exactly the containers of C whose ID is
not in R, in the order of C (a filter of C); with a failed list it returns
the error and no list. -/
theorem getNewContainers_exact (R : Finset String) (C : List Container) (e : GoError) :
    (GetNewContainers ⟨R⟩ (.ok C)).1 = .ok (C.filter fun c => decide (c.id ∉ R)) ∧
    (GetNewContainers ⟨R⟩ (.error e)).1 = .error (.operatorErr ErrContainerList e) := by
  constructor
  · simp [GetNewContainers, GetCurrentContainers, decide_not]
  · rfl

/-- C7: a failed backend listing is wrapped in an OperatorErr carrying the
fixed ErrContainerList reason tag and the underlying error, while failed
stats and kill queries return the backend error unchanged. -/
theorem listWrapped_statsKillUnwrapped (R : Finset String) (e : GoError) :
    (GetCurrentContainers ⟨R⟩ (.error e)).1 = .error (.operatorErr ErrContainerList e) ∧
    (ContainerStats ⟨R⟩ (.error e)).1 = .error e ∧
    (KillContainer ⟨R⟩ (.error e)).1 = .error e :=
  ⟨rfl, rfl, rfl⟩

/-- C9: every Operator operation except RememberCurrentContainerIDs leaves
the Operator state (the remembered set) exactly as it was, whatever the
backend or the filesystem replies. -/
theorem onlyRemember_mutates (o : Operator) (fs : FileSys)
    (lr : Except GoError (List Container)) (sr : Except GoError Stats)
    (kr : Except GoError Unit) (name path dir : String) :
    (GetCurrentContainers o lr).2 = o ∧
    (GetNewContainers o lr).2 = o ∧
    (GetNewContainerIDs o lr).2 = o ∧
    (GetNewContainerIDByName o lr name).2 = o ∧
    (GetContainerIDByPath o fs lr path dir).2 = o ∧
    (ContainerStats o sr).2 = o ∧
    (KillContainer o kr).2 = o := by
  refine ⟨getCurrentContainers_state .., ?_, ?_, ?_, getContainerIDByPath_state .., ?_, rfl⟩
  · cases lr <;> rfl
  · cases lr <;> rfl
  · cases lr <;> rfl
  · cases sr <;> rfl

/-- C4: RememberCurrentContainerIDs only adds.  Starting from a fresh
Operator, after a sequence of successful calls the remembered set is the
union of the IDs of all the lists observed; calling it a second time on
the same list changes nothing; and no single call, successful or not, ever
removes an ID from the set. -/
theorem remember_union_monotone (ls : List (List Container)) (o : Operator)
    (l : List Container) (lr : Except GoError (List Container)) :
    (rememberSeq NewOperator (ls.map Except.ok)).existingContainers
        = (ls.flatMap fun li => li.map Container.id).toFinset ∧
    (RememberCurrentContainerIDs (RememberCurrentContainerIDs o (.ok l)).2 (.ok l)).2
        = (RememberCurrentContainerIDs o (.ok l)).2 ∧
    o.existingContainers ⊆ (RememberCurrentContainerIDs o lr).2.existingContainers := by
  refine ⟨?_, ?_, ?_⟩
  · simp [rememberSeq_ok, NewOperator]
  · simp [remember_state_ok, Finset.union_assoc]
  · cases lr with
    | error e => simp [RememberCurrentContainerIDs, GetCurrentContainers]
    | ok l2 => simp [remember_state_ok]

/-- C5: GetNewContainerIDByName returns the ID of the first new container
with a matching name (each alias compared after stripping exactly one
leading slash), the empty string with no error when none matches, and the
listing error when the list query fails; HasName on the concrete examples
of the spec. -/
theorem newContainerIDByName_firstMatch (R : Finset String) (live : List Container)
    (name : String) (e : GoError) :
    (GetNewContainerIDByName ⟨R⟩ (.ok live) name).1 =
      .ok ((((live.filter fun c => decide (c.id ∉ R)).find? fun c => HasName name c).map
        Container.id).getD "") ∧
    HasName "foo" ⟨"id1", ["/foo"]⟩ = true ∧
    HasName "foo" ⟨"id2", ["foo"]⟩ = true ∧
    HasName "bar" ⟨"id1", ["/foo"]⟩ = false ∧
    HasName "bar" ⟨"id2", ["foo"]⟩ = false ∧
    (GetNewContainerIDByName ⟨R⟩ (.error e) name).1 =
      .error (.operatorErr ErrContainerList e) := by
  refine ⟨?_, by decide, by decide, by decide, by decide, rfl⟩
  simp [GetNewContainerIDByName, GetNewContainers, GetCurrentContainers,
    findIDByName_eq_find, decide_not]

/-- C2: when a file exists at the resolved path and is readable, the
candidate ID is the whole content with one trailing newline trimmed; the
call returns that ID when some live container carries it, and the empty
string with no error otherwise. -/
theorem getContainerIDByPath_direct (R : Finset String) (fs : FileSys)
    (live : List Container) (path dir content : String)
    (hstat : fs.stat (RelToAbsPath path dir) = true)
    (hread : fs.readFile (RelToAbsPath path dir) = .ok content) :
    (GetContainerIDByPath ⟨R⟩ fs (.ok live) path dir).1 =
      .ok (cond (live.any fun c => c.id == trimSuffix content "\n")
        (trimSuffix content "\n") "") := by
  cases h : live.any fun c => c.id == trimSuffix content "\n" <;>
    simp [GetContainerIDByPath, hstat, cidPathToID, hread, verifyID,
      GetCurrentContainers, h]

theorem getContainerIDByPath_direct_witness :
    (sampleFS.stat (RelToAbsPath "/tmp/app.cid" "/") = true ∧
      sampleFS.readFile (RelToAbsPath "/tmp/app.cid" "/") = .ok "abc123\n") ∧
    (GetContainerIDByPath ⟨∅⟩ sampleFS (.ok [⟨"abc123", []⟩]) "/tmp/app.cid" "/").1 =
      .ok "abc123" := by
  refine ⟨⟨by decide, by decide⟩, ?_⟩
  rw [getContainerIDByPath_direct ∅ sampleFS [⟨"abc123", []⟩] "/tmp/app.cid" "/"
    "abc123\n" (by decide) (by decide)]
  decide

/-- With a successful listing, the glob loop of the code computes exactly
the scan the spec describes. -/
theorem cidGlobLoop_eq_specGlobScan (o : Operator) (fs : FileSys) (live : List Container)
    (paths : List String) :
    cidGlobLoop o fs (.ok live) paths = specGlobScan fs live paths := by
  induction paths with
  | nil => rfl
  | cons p rest ih =>
    unfold cidGlobLoop specGlobScan
    cases h : fs.readFile p with
    | error e => simp [cidPathToID, h, ih]
    | ok content =>
      cases hv : live.any fun c => c.id == trimSuffix content "\n" <;>
        simp [cidPathToID, h, verifyID, GetCurrentContainers, hv, ih]

/-- C3: when no file exists at the resolved path, a syntactically invalid
glob pattern surfaces a non-nil error, and otherwise the matches are
scanned in glob order, skipping unreadable files and candidates that do
not verify, returning the first verifying ID or the empty string with no
error. -/
theorem getContainerIDByPath_glob (R : Finset String) (fs : FileSys) (live : List Container)
    (path dir : String) (paths : List String) (e : GoError)
    (hstat : fs.stat (RelToAbsPath path dir) = false) :
    (fs.glob (RelToAbsPath path dir) = .error e →
      (GetContainerIDByPath ⟨R⟩ fs (.ok live) path dir).1 = .error e) ∧
    (fs.glob (RelToAbsPath path dir) = .ok paths →
      (GetContainerIDByPath ⟨R⟩ fs (.ok live) path dir).1 =
        .ok (specGlobScan fs live paths)) := by
  constructor <;> intro hglob <;>
    simp [GetContainerIDByPath, hstat, cidPathGlobToID, hglob, cidGlobLoop_eq_specGlobScan]

theorem getContainerIDByPath_glob_witness :
    (globFS.stat (RelToAbsPath "/tmp/app?.cid" "/") = false ∧
      globFS.glob (RelToAbsPath "/tmp/app?.cid" "/") =
        .ok ["/tmp/app1.cid", "/tmp/app2.cid"]) ∧
    (GetContainerIDByPath ⟨∅⟩ globFS (.ok [⟨"live77", []⟩]) "/tmp/app?.cid" "/").1 =
      .ok "live77" := by
  refine ⟨⟨by decide, by decide⟩, ?_⟩
  rw [(getContainerIDByPath_glob ∅ globFS [⟨"live77", []⟩] "/tmp/app?.cid" "/"
    ["/tmp/app1.cid", "/tmp/app2.cid"] (.raw "unused") (by decide)).2 (by decide)]
  decide

/-- C8 (the code against its own documentation): the ID file holds the ID
of a live container on its first line but has a second line; the method
doc of GetContainerIDByPath and cidPathToID promises the first line is
recognized, yet the code trims only one trailing newline from the whole
content, the candidate fails verification, and the call returns the empty
string instead of the first-line ID. -/
theorem cidFile_firstLine_bug :
    specFirstLine "abc123\nextra\n" = "abc123" ∧
    trimSuffix "abc123\nextra\n" "\n" = "abc123\nextra" ∧
    (GetContainerIDByPath ⟨∅⟩ multiLineFS (.ok [⟨"abc123", []⟩]) "/tmp/app.cid" "/").1 =
      .ok "" := by
  refine ⟨by decide, by decide, by decide⟩

/-- C6 counterexample: the exact path is absent, the glob matches one
readable candidate, and the backend listing fails; the listing failure is
not surfaced — the call returns a successful empty result. -/
theorem globListingFailure_swallowed :
    (GetContainerIDByPath ⟨∅⟩ listFailGlobFS (.error (.raw "backend down"))
      "/tmp/app*.cid" "/").1 = .ok "" := by decide

/-- C6 amended: every collaborator failure during an operation is returned
to the immediate caller — wrapped for a list failure, verbatim otherwise —
except inside the glob scan of GetContainerIDByPath, where a per-candidate
failure (read error or backend listing error) is skipped and the scan
continues with the next match. -/
theorem errorPropagation_amended (o : Operator) (fs : FileSys) (R : Finset String)
    (e e2 : GoError) (name path dir content p : String) (rest : List String)
    (lr : Except GoError (List Container)) :
    (GetCurrentContainers ⟨R⟩ (.error e)).1 = .error (.operatorErr ErrContainerList e) ∧
    (RememberCurrentContainerIDs ⟨R⟩ (.error e)).1 =
      .error (.operatorErr ErrContainerList e) ∧
    (GetNewContainers ⟨R⟩ (.error e)).1 = .error (.operatorErr ErrContainerList e) ∧
    (GetNewContainerIDs ⟨R⟩ (.error e)).1 = .error (.operatorErr ErrContainerList e) ∧
    (GetNewContainerIDByName ⟨R⟩ (.error e) name).1 =
      .error (.operatorErr ErrContainerList e) ∧
    (ContainerStats ⟨R⟩ (.error e)).1 = .error e ∧
    (KillContainer ⟨R⟩ (.error e)).1 = .error e ∧
    (fs.stat (RelToAbsPath path dir) = true →
      fs.readFile (RelToAbsPath path dir) = .error e2 →
      (GetContainerIDByPath ⟨R⟩ fs (.error e) path dir).1 = .error e2) ∧
    (fs.stat (RelToAbsPath path dir) = true →
      fs.readFile (RelToAbsPath path dir) = .ok content →
      (GetContainerIDByPath ⟨R⟩ fs (.error e) path dir).1 =
        .error (.operatorErr ErrContainerList e)) ∧
    (fs.stat (RelToAbsPath path dir) = false →
      fs.glob (RelToAbsPath path dir) = .error e2 →
      (GetContainerIDByPath ⟨R⟩ fs (.error e) path dir).1 = .error e2) ∧
    ((cidPathToID o fs lr p).1 = .error e2 →
      cidGlobLoop o fs lr (p :: rest) = cidGlobLoop o fs lr rest) := by
  refine ⟨rfl, rfl, rfl, rfl, rfl, rfl, rfl, ?_, ?_, ?_, ?_⟩
  · intro hstat hread
    simp [GetContainerIDByPath, hstat, cidPathToID, hread]
  · intro hstat hread
    simp [GetContainerIDByPath, hstat, cidPathToID, hread, verifyID, GetCurrentContainers]
  · intro hstat hglob
    simp [GetContainerIDByPath, hstat, cidPathGlobToID, hglob]
  · intro herr
    cases hc : cidPathToID o fs lr p with
    | mk fst snd =>
      cases fst with
      | error e3 => simp [cidGlobLoop, hc]
      | ok id => rw [hc] at herr; exact absurd herr (by simp)

theorem errorPropagation_amended_witness :
    (readFailFS.stat (RelToAbsPath "/tmp/app.cid" "/") = true ∧
      readFailFS.readFile (RelToAbsPath "/tmp/app.cid" "/") =
        .error (.raw "permission denied")) ∧
    (GetContainerIDByPath ⟨∅⟩ readFailFS (.error (.raw "backend down"))
      "/tmp/app.cid" "/").1 = .error (.raw "permission denied") := by
  refine ⟨⟨by decide, by decide⟩, ?_⟩
  exact (errorPropagation_amended ⟨∅⟩ readFailFS ∅ (.raw "backend down")
    (.raw "permission denied") "" "/tmp/app.cid" "/" "" "" [] (.ok [])).2.2.2.2.2.2.2.1
    (by decide) (by decide)

end ContainerOp
